import Mathlib

/-!
Verification of the client-side patient-monitoring application
(`static/js/app.js`).

The parts of the program the specification talks about are embedded as
executable Lean definitions, translated from the JavaScript source:

* the privacy pixelation transform `applyPrivacyFilter` and its face
  region `faceRegion`;
* the indicator derivation `updateIndicators` as a pure function from an
  analysis result to the rendered view;
* the alert classification `getAlertClass`;
* the session lifecycle `startMonitoring` / `stopMonitoring` and the
  per-tick `analyzeFrame` as state-plus-effects step functions.

Pixel channels are `Nat` (source: bytes of a `Uint8ClampedArray`; every
value the filter writes is a floored mean of existing channel values, so
on byte-valued input writes stay in 0..255 and the clamped write is the
identity).  Confidences are `ℚ` (source: IEEE doubles; every concrete
value appearing in the claims - 0.9, 0.5, 0 - and every product with 100
taken here is computed exactly by the doubles as well, after rounding to
nearest).  Absent JSON fields are `Option.none`.
-/

/-- One RGBA pixel of an image-data buffer. -/
structure Pixel where
  r : Nat
  g : Nat
  b : Nat
  a : Nat
deriving DecidableEq, Repr

/-- A pixel buffer addressed by coordinate (x, y).  The JavaScript flat
`data` array addresses the pixel at (x, y) as `((y * width) + x) * 4`;
every access in `applyPrivacyFilter` has `x < width`, so the flat
addressing is the same function as this two-dimensional one. -/
abbrev Img : Type := Nat → Nat → Pixel

/-- A rectangle, as the object literal `faceRegion` in the source. -/
structure Rect where
  x : Nat
  y : Nat
  width : Nat
  height : Nat
deriving DecidableEq, Repr

/-- The face region of `applyPrivacyFilter` (app.js 133-138):
`x = Math.floor(w*0.25)`, `y = Math.floor(h*0.05)`,
`width = Math.floor(w*0.5)`, `height = Math.floor(h*0.45)`.
The double products `w*0.25` and `w*0.5` are exact, and for `h` in the
canvas-dimension range the rounded products `h*0.05` and `h*0.45` floor
to the exact rational floors, so the four fields are the natural-number
divisions `w/4`, `h/20`, `w/2`, `9*h/20`. -/
def faceRegion (w h : Nat) : Rect :=
  { x := w / 4, y := h / 20, width := w / 2, height := 9 * h / 20 }

/-- Membership of a pixel coordinate in a rectangle. -/
def Rect.containsPt (fr : Rect) (px py : Nat) : Prop :=
  fr.x ≤ px ∧ px < fr.x + fr.width ∧ fr.y ≤ py ∧ py < fr.y + fr.height

instance (fr : Rect) (px py : Nat) : Decidable (fr.containsPt px py) := by
  unfold Rect.containsPt
  infer_instance

/-- The clipped pixel set of the block with origin `(x0, y0)` inside a
`W × H` region: the inner loops of `applyPrivacyFilter`
(`for dy in [0,16) while y0+dy < H`, `for dx in [0,16) while x0+dx < W`),
listed in loop order (`dy` outer, `dx` inner), emitting coordinates
`(x0+dx, y0+dy)`.  `this.PIXELATION_SIZE` is 16. -/
def blockPts (W H x0 y0 : Nat) : List (Nat × Nat) :=
  (List.range (min 16 (H - y0))).flatMap fun dy =>
    (List.range (min 16 (W - x0))).map fun dx => (x0 + dx, y0 + dy)

/-- Sum of one channel over a list of coordinates (the `r += data[idx]`
accumulation of pass 1). -/
def chanSum (d : Img) (pts : List (Nat × Nat)) (f : Pixel → Nat) : Nat :=
  (pts.map fun p => f (d p.1 p.2)).sum

/-- One iteration of the block loop body of `applyPrivacyFilter`
(app.js 150-173): pass 1 sums R, G, B over the clipped block and divides
by the pixel count (`Math.floor(r / count)` on naturals is `Nat` division),
pass 2 overwrites R, G, B of every pixel of the block with the averaged
triple; the alpha byte (`idx + 3`) is never written. -/
def processBlock (W H x0 y0 : Nat) (d : Img) : Img :=
  let pts := blockPts W H x0 y0
  let cnt := pts.length
  let rAvg := chanSum d pts Pixel.r / cnt
  let gAvg := chanSum d pts Pixel.g / cnt
  let bAvg := chanSum d pts Pixel.b / cnt
  fun px py =>
    if (px, py) ∈ pts then { r := rAvg, g := gAvg, b := bAvg, a := (d px py).a }
    else d px py

/-- The block origins visited by the outer loops of `applyPrivacyFilter`
(`for y = 0; y < height; y += 16` outer, `for x = 0; x < width; x += 16`
inner), in visit order. -/
def blockOrigins (W H : Nat) : List (Nat × Nat) :=
  (List.range ((H + 15) / 16)).flatMap fun j =>
    (List.range ((W + 15) / 16)).map fun i => (16 * i, 16 * j)

/-- The whole pixelation loop nest of `applyPrivacyFilter`, run over the
extracted region data (coordinates relative to the region origin), blocks
processed in source order on the shared mutable `data` array. -/
def filterRegion (W H : Nat) (d : Img) : Img :=
  (blockOrigins W H).foldl (fun acc o => processBlock W H o.1 o.2 acc) d

/-- `applyPrivacyFilter` (app.js 128-178) at canvas level: `getImageData`
extracts the face region, the block loop nest rewrites it, `putImageData`
writes it back at the region origin.  Pixels outside the region are not
touched. -/
def applyPrivacyFilter (w h : Nat) (buf : Img) : Img :=
  let fr := faceRegion w h
  let sub : Img := fun u v => buf (fr.x + u) (fr.y + v)
  let filtered := filterRegion fr.width fr.height sub
  fun px py =>
    if fr.containsPt px py then filtered (px - fr.x) (py - fr.y)
    else buf px py

/-- The pixel value the specification expects the filter to write at
region coordinate `(p, q)`: the floored per-channel mean of the clipped
pre-filter pixel set of the 16-grid block containing `(p, q)`, with the
pre-filter alpha at `(p, q)`. -/
def blockMeanPixel (W H : Nat) (d0 : Img) (p q : Nat) : Pixel :=
  let pts := blockPts W H (16 * (p / 16)) (16 * (q / 16))
  { r := chanSum d0 pts Pixel.r / pts.length
    g := chanSum d0 pts Pixel.g / pts.length
    b := chanSum d0 pts Pixel.b / pts.length
    a := (d0 p q).a }

/-- JavaScript truthiness of a possibly-absent boolean field
(`results.fall_detected` etc.): `undefined` is falsy. -/
def truthy : Option Bool → Bool
  | none => false
  | some b => b

/-- JavaScript `v || dflt` on a possibly-absent numeric field: both
`undefined` and `0` are falsy and select the default. -/
def orDefault (v : Option ℚ) (dflt : ℚ) : ℚ :=
  match v with
  | none => dflt
  | some x => if x = 0 then dflt else x

/-- Body of a 2xx `/api/analyze` response.  Fields the backend omitted
are `none`. -/
structure AnalysisResult where
  fall_detected : Option Bool := none
  fall_confidence : Option ℚ := none
  aggression : Option Bool := none
  aggression_confidence : Option ℚ := none
  risky_behavior : Option Bool := none
  risky_confidence : Option ℚ := none
  emotion : Option String := none
  emotion_confidence : Option ℚ := none
deriving DecidableEq, Repr

/-- Rendered state of one boolean indicator card: the active CSS class,
the status text, the status text color (empty string = cleared), the
confidence-bar width in percent, and the bar color. -/
structure IndicatorView where
  active : Bool
  statusText : String
  statusColor : String
  fillPercent : ℚ
  fillColor : String
deriving DecidableEq, Repr

/-- Rendered state of the emotion card.  `icon` is `some s` when the
rendered innerHTML is the known string `s`, and `none` when the program
renders the host-defined stringification of a member inherited from
`Object.prototype` (a truthy lookup that suppresses the neutral-icon
fallback).  `color` is the effective CSS color: `none` when the source
assigns `undefined` or an inherited non-CSS value, both of which fail to
parse and leave the property unset. -/
structure EmotionView where
  icon : Option String
  label : String
  color : Option String
  fillPercent : ℚ
deriving DecidableEq, Repr

/-- The four indicator cards rendered by `updateIndicators`. -/
structure IndicatorsView where
  fall : IndicatorView
  aggression : IndicatorView
  risky : IndicatorView
  emotion : EmotionView
deriving DecidableEq, Repr

/-- Fall card update (app.js 213-229).  `classList.add('active-fall')` on
a truthy `fall_detected`, the two text/color branches, then
`width = (results.fall_confidence || 0) * 100 + '%'` and the ternary bar
color, assigned once after the branch. -/
def fallView (results : AnalysisResult) : IndicatorView :=
  let flag := truthy results.fall_detected
  { active := flag
    statusText := if flag then "FALL DETECTED!" else "No Fall Detected"
    statusColor := if flag then "var(--danger-color)" else ""
    fillPercent := orDefault results.fall_confidence 0 * 100
    fillColor := if flag then "var(--danger-color)" else "var(--success-color)" }

/-- Aggression card update (app.js 231-247). -/
def aggressionView (results : AnalysisResult) : IndicatorView :=
  let flag := truthy results.aggression
  { active := flag
    statusText := if flag then "AGGRESSION DETECTED!" else "Normal Behavior"
    statusColor := if flag then "var(--warning-color)" else ""
    fillPercent := orDefault results.aggression_confidence 0 * 100
    fillColor := if flag then "var(--warning-color)" else "var(--success-color)" }

/-- Risky-behavior card update (app.js 249-265). -/
def riskyView (results : AnalysisResult) : IndicatorView :=
  let flag := truthy results.risky_behavior
  { active := flag
    statusText := if flag then "RISKY BEHAVIOR!" else "Safe Position"
    statusColor := if flag then "#eab308" else ""
    fillPercent := orDefault results.risky_confidence 0 * 100
    fillColor := if flag then "#eab308" else "var(--success-color)" }

/-- Result of a JavaScript bracket lookup on one of the two object
literals: an own string-valued data property, a truthy member inherited
from `Object.prototype` (a function or prototype object - never a string
of the literal), or `undefined`. -/
inductive JsLookup where
  | str (v : String)
  | inherited
  | missing
deriving DecidableEq, Repr

/-- The property names every object literal inherits from
`Object.prototype`: a bracket lookup with one of these keys that is not
an own property yields the inherited member - a function, or the
prototype object for `__proto__` - which is truthy. -/
def objectPrototypeProps : List String :=
  ["constructor", "hasOwnProperty", "isPrototypeOf", "propertyIsEnumerable",
   "toLocaleString", "toString", "valueOf", "__proto__",
   "__defineGetter__", "__defineSetter__", "__lookupGetter__", "__lookupSetter__"]

/-- The `emotionIcons` object literal (app.js 272-278) under bracket
lookup: the five own entries, then the `Object.prototype` chain, then
`undefined`. -/
def emotionIcons (e : String) : JsLookup :=
  if e = "happy" then .str "&#128522;"
  else if e = "sad" then .str "&#128546;"
  else if e = "angry" then .str "&#128544;"
  else if e = "scared" then .str "&#128552;"
  else if e = "neutral" then .str "&#128528;"
  else if e ∈ objectPrototypeProps then .inherited
  else .missing

/-- The `emotionColors` object literal (app.js 280-286) under bracket
lookup. -/
def emotionColors (e : String) : JsLookup :=
  if e = "happy" then .str "var(--success-color)"
  else if e = "sad" then .str "var(--info-color)"
  else if e = "angry" then .str "var(--danger-color)"
  else if e = "scared" then .str "var(--warning-color)"
  else if e = "neutral" then .str "var(--secondary-color)"
  else if e ∈ objectPrototypeProps then .inherited
  else .missing

/-- `capitalizeFirst` (app.js 420-422):
`str.charAt(0).toUpperCase() + str.slice(1)`.  `Char.toUpper` is the
ASCII case map, which agrees with the Unicode `toUpperCase` of the
program exactly on ASCII characters; theorems about the rendered label
therefore restrict to ASCII strings (JavaScript additionally uppercases
non-ASCII letters and expands special cases such as the sharp s). -/
def capitalizeFirst (s : String) : String :=
  match s.data with
  | [] => ""
  | c :: cs => String.mk (Char.toUpper c :: cs)

/-- JavaScript `results.emotion || 'neutral'`: `undefined` and the empty
string are falsy and fall back to `'neutral'`; any other string - also an
unrecognized one - is kept. -/
def emotionOrNeutral (v : Option String) : String :=
  match v with
  | none => "neutral"
  | some s => if s = "" then "neutral" else s

/-- Emotion card update (app.js 267-294).  The icon is
`emotionIcons[emotion] || emotionIcons['neutral']`: an own entry renders
itself, a truthy inherited member renders its host-defined
stringification (`none` here), and only `undefined` falls back to the
neutral icon.  The label is `capitalizeFirst(emotion)` with no fallback.
The color is the effect of assigning `emotionColors[emotion]` to
`style.color`: an own entry is a valid CSS value and takes effect;
`undefined` and an inherited function/object stringify to non-CSS text,
which the CSSOM rejects, leaving the property unset.  The bar width is
`(results.emotion_confidence || 0.5) * 100 + '%'`. -/
def emotionView (results : AnalysisResult) : EmotionView :=
  let emotion := emotionOrNeutral results.emotion
  { icon := match emotionIcons emotion with
      | .str v => some v
      | .inherited => none
      | .missing => some "&#128528;"
    label := capitalizeFirst emotion
    color := match emotionColors emotion with
      | .str v => some v
      | .inherited => none
      | .missing => none
    fillPercent := orDefault results.emotion_confidence 0.5 * 100 }

/-- `updateIndicators` (app.js 212-295) as a pure function from the
parsed analysis result to the rendered view of the four cards. -/
def updateIndicators (results : AnalysisResult) : IndicatorsView :=
  { fall := fallView results
    aggression := aggressionView results
    risky := riskyView results
    emotion := emotionView results }

/-- `String.prototype.includes`: substring test, i.e. the character list
of the needle is a contiguous infix of the character list of the
haystack. -/
def strIncludes (s sub : String) : Bool := decide (List.IsInfix sub.data s.data)

/-- `getAlertClass` (app.js 358-363). -/
def getAlertClass (issue : String) : String :=
  if strIncludes issue "Fall" then "alert-critical"
  else if strIncludes issue "Aggression" then "alert-warning"
  else if strIncludes issue "Risky" then "alert-caution"
  else "alert-info"

/-- `getAlertIcon` (app.js 365-371). -/
def getAlertIcon (issue : String) : String :=
  if strIncludes issue "Fall" then "&#9888;"
  else if strIncludes issue "Aggression" then "&#9889;"
  else if strIncludes issue "Risky" then "&#9888;"
  else if strIncludes issue "Emotion" then "&#128528;"
  else "&#8505;"

/-- Observable side effects of the session lifecycle and analysis-tick
functions. -/
inductive Effect where
  | acquireDevice
  | playVideo
  | startRenderLoop
  | scheduleAnalysis
  | postStatusToggle
  | stopTracks
  | cancelAnalysis
deriving DecidableEq, Repr

/-- `resetIndicators` (app.js 297-311): removes the three active classes,
clears the status colors, and sets every confidence-bar width to 0%;
status texts, bar colors and the emotion icon/label are not rewritten. -/
def resetIndicatorsView (v : IndicatorsView) : IndicatorsView :=
  { fall := { v.fall with active := false, statusColor := "", fillPercent := 0 }
    aggression := { v.aggression with active := false, statusColor := "", fillPercent := 0 }
    risky := { v.risky with active := false, statusColor := "", fillPercent := 0 }
    emotion := { v.emotion with fillPercent := 0 } }

/-- The mutable fields of the application object that the session
lifecycle reads or writes.  Stream and interval handles are opaque
numbers; `none` is the JavaScript `null`. -/
structure AppState where
  isMonitoring : Bool
  stream : Option Nat
  analysisInterval : Option Nat
  hasCanvas : Bool
  indicators : IndicatorsView
deriving DecidableEq, Repr

/-- `startMonitoring` (app.js 56-92), successful-acquisition path, as a
state-transition-plus-effects function.  `newStream` and `newTimer` are
the handles the environment returns.  The source body has no
`isMonitoring` guard: it runs in full - beginning with the `getUserMedia`
device acquisition - regardless of the current state, and overwrites
`this.stream` and `this.analysisInterval` without releasing the previous
handles. -/
def startMonitoringStep (s : AppState) (newStream newTimer : Nat) :
    AppState × List Effect :=
  ({ s with isMonitoring := true, stream := some newStream,
            analysisInterval := some newTimer },
   [Effect.acquireDevice, Effect.playVideo, Effect.startRenderLoop,
    Effect.scheduleAnalysis, Effect.postStatusToggle])

/-- `stopMonitoring` (app.js 94-116) as a state-transition-plus-effects
function.  No `isMonitoring` guard either: the null checks on `stream`
and `analysisInterval` only protect the release calls, the indicator
reset runs unconditionally, and the `/api/status/toggle` POST is sent
unconditionally. -/
def stopMonitoringStep (s : AppState) : AppState × List Effect :=
  ({ s with isMonitoring := false, stream := none, analysisInterval := none,
            indicators := resetIndicatorsView s.indicators },
   (if s.stream.isSome then [Effect.stopTracks] else []) ++
   (if s.analysisInterval.isSome then [Effect.cancelAnalysis] else []) ++
   [Effect.postStatusToggle])

/-- Outcome of one `fetch('/api/analyze', ...)` round trip as seen by
`analyzeFrame`: a 2xx response with a parsed body, a response with
`response.ok` false, or a rejected promise (network/encoding failure)
that lands in the catch block. -/
inductive FetchOutcome where
  | ok (results : AnalysisResult)
  | httpFailure
  | transportFailure
deriving Repr

/-- One analysis tick, `analyzeFrame` (app.js 180-210), as a function of
the pre-tick state and the round-trip outcome; the second component is
the list of `console.error` messages the tick produces.  A 2xx response
updates the indicators; a non-2xx response is skipped with no log (the
`if (response.ok)` test simply does nothing); a rejected promise is
caught and logged.  Nothing clears or reschedules the interval. -/
def analyzeFrameStep (s : AppState) (o : FetchOutcome) : AppState × List String :=
  if !s.isMonitoring || !s.hasCanvas then (s, [])
  else
    match o with
    | .ok results => ({ s with indicators := updateIndicators results }, [])
    | .httpFailure => (s, [])
    | .transportFailure => (s, ["Error analyzing frame:"])

/-- Browser primitives `analyzeFrame` uses to build its payload, kept
abstract: `drawImage` scaling of a source frame onto a `tw × th` canvas,
and `canvas.toDataURL('image/jpeg', 0.7)` encoding. -/
structure BrowserEnv where
  drawScaled : Img → Nat → Nat → Img
  encodeJpeg : Img → Nat → Nat → String

/-- The capture-side data an analysis tick could read: the raw video
element's current frame, the (privacy-filtered) display canvas contents,
and the display canvas dimensions. -/
structure CaptureState where
  videoFrame : Img
  canvasBuf : Img
  canvasW : Nat
  canvasH : Nat

/-- The encoded image payload built by `analyzeFrame` (app.js 184-192): a
temporary canvas of half the display-canvas size (`canvas.width * 0.5`,
exact in doubles, truncated by the canvas-size setter), then
`drawImage(this.video, 0, 0, tw, th)` - the raw video element, not the
filtered display canvas - then JPEG data-URL encoding.  The POST body is
`JSON.stringify` of an object whose single field `image` is this string,
hence a function of this string alone. -/
def analyzePayload (env : BrowserEnv) (s : CaptureState) : String :=
  let tw := s.canvasW / 2
  let th := s.canvasH / 2
  env.encodeJpeg (env.drawScaled s.videoFrame tw th) tw th

/-- A constant gray test image. -/
def grayImg : Img := fun _ _ => { r := 7, g := 7, b := 7, a := 9 }

/-- A constant black, fully transparent test image. -/
def blackImg : Img := fun _ _ => { r := 0, g := 0, b := 0, a := 0 }

/-- The analysis result of claim C6: fall detected with confidence 0.9,
every other field absent. -/
def c6Input : AnalysisResult := { fall_detected := some true, fall_confidence := some 0.9 }

/-- An analysis result carrying an unrecognized emotion value. -/
def c7Input : AnalysisResult := { emotion := some "confused" }

/-- An analysis result whose emotion value is a property name inherited
from `Object.prototype`, making both object-literal lookups truthy. -/
def c7ProtoInput : AnalysisResult := { emotion := some "constructor" }

/-- An analysis result with every confidence present and exactly 0. -/
def c10Input : AnalysisResult :=
  { fall_confidence := some 0, aggression_confidence := some 0,
    risky_confidence := some 0, emotion_confidence := some 0 }

/-- An idle app state (fresh page: monitoring off, no handles). -/
def idleState : AppState :=
  { isMonitoring := false, stream := none, analysisInterval := none,
    hasCanvas := true, indicators := updateIndicators {} }

/-- An active app state (monitoring on, stream and timer handles held). -/
def activeState : AppState :=
  { isMonitoring := true, stream := some 0, analysisInterval := some 0,
    hasCanvas := true, indicators := updateIndicators {} }

/-- A concrete browser environment for witnesses. -/
def witnessEnv : BrowserEnv :=
  { drawScaled := fun f _ _ => f
    encodeJpeg := fun f tw th => toString (f 0 0).r ++ toString tw ++ toString th }

/-- A capture state whose display canvas holds the gray image. -/
def captureGray : CaptureState :=
  { videoFrame := grayImg, canvasBuf := grayImg, canvasW := 640, canvasH := 480 }

/-- The same raw video frame and dimensions, but a different (black)
display canvas. -/
def captureBlack : CaptureState :=
  { videoFrame := grayImg, canvasBuf := blackImg, canvasW := 640, canvasH := 480 }

/-- C4: the face region computed from frame dimensions `w, h` is
`(floor 0.25w, floor 0.05h, floor 0.5w, floor 0.45h)`; for `w = 640`,
`h = 480` it is exactly `(160, 24, 320, 216)`; and for every positive
`w, h` it satisfies `x + width ≤ w` and `y + height ≤ h`, hence lies
inside the frame. -/
theorem faceRegion_spec (w h : Nat) (hw : 0 < w) (hh : 0 < h) :
    faceRegion w h = { x := w / 4, y := h / 20, width := w / 2, height := 9 * h / 20 } ∧
    faceRegion 640 480 = { x := 160, y := 24, width := 320, height := 216 } ∧
    (faceRegion w h).x + (faceRegion w h).width ≤ w ∧
    (faceRegion w h).y + (faceRegion w h).height ≤ h := by
  refine ⟨rfl, rfl, ?_, ?_⟩ <;> simp only [faceRegion] <;> omega

/-- Witness for `faceRegion_spec` at the default 640 × 480 resolution. -/
theorem faceRegion_spec_witness :
    faceRegion 640 480 = { x := 160, y := 24, width := 320, height := 216 } ∧
    (faceRegion 640 480).x + (faceRegion 640 480).width ≤ 640 ∧
    (faceRegion 640 480).y + (faceRegion 640 480).height ≤ 480 := by
  have h := faceRegion_spec 640 480 (by decide) (by decide)
  exact ⟨h.2.1, h.2.2.1, h.2.2.2⟩

/-- C6: on the analysis result with `fall_detected = true`,
`fall_confidence = 0.9` and all other fields absent, the fall card is
active with a 90% bar, the aggression and risky cards are inactive with
0% bars, and the emotion card shows the neutral label at 50% fill. -/
theorem updateIndicators_c6 :
    (updateIndicators c6Input).fall.active = true ∧
    (updateIndicators c6Input).fall.fillPercent = 90 ∧
    (updateIndicators c6Input).aggression.active = false ∧
    (updateIndicators c6Input).aggression.fillPercent = 0 ∧
    (updateIndicators c6Input).risky.active = false ∧
    (updateIndicators c6Input).risky.fillPercent = 0 ∧
    (updateIndicators c6Input).emotion.label = "Neutral" ∧
    (updateIndicators c6Input).emotion.fillPercent = 50 := by
  refine ⟨by decide, ?_, by decide, ?_, by decide, ?_, by decide, ?_⟩ <;>
    norm_num [updateIndicators, c6Input, fallView, aggressionView, riskyView,
      emotionView, truthy, orDefault]

/-- C7 fails on the code: a present but unrecognized emotion string is
not replaced by the neutral label - `results.emotion || 'neutral'` keeps
any non-empty string, and the label is `capitalizeFirst` of it. -/
theorem updateIndicators_c7_cex :
    (updateIndicators c7Input).emotion.label = "Confused" ∧
    (updateIndicators c7Input).emotion.label ≠ "Neutral" ∧
    (updateIndicators c7Input).emotion.label ≠ "neutral" := by
  refine ⟨?_, ?_, ?_⟩ <;> decide

/-- C7 (amended): the displayed emotion label is the neutral one exactly
when the emotion field is absent or the empty string; a present,
non-empty value is displayed capitalized as-is (stated for ASCII values,
on which the embedded case map agrees with the program's Unicode one).
An unrecognized value that is not an `Object.prototype` property name
gets the neutral icon as fallback and no effective color; an inherited
`Object.prototype` property name (constructor, toString, __proto__ and
the like) is a truthy lookup, so the rendered icon is the stringified
inherited member - not the neutral icon - and still no valid color takes
effect. -/
theorem updateIndicators_c7_amended (r : AnalysisResult) :
    (r.emotion = none ∨ r.emotion = some "" →
       (updateIndicators r).emotion.label = "Neutral" ∧
       (updateIndicators r).emotion.icon = some "&#128528;" ∧
       (updateIndicators r).emotion.color = some "var(--secondary-color)") ∧
    (∀ s, r.emotion = some s → s ≠ "" →
       ((∀ c ∈ s.data, c.toNat < 128) →
          (updateIndicators r).emotion.label = capitalizeFirst s) ∧
       (s ∉ (["happy", "sad", "angry", "scared", "neutral"] : List String) →
          s ∉ objectPrototypeProps →
          (updateIndicators r).emotion.icon = some "&#128528;" ∧
          (updateIndicators r).emotion.color = none) ∧
       (s ∉ (["happy", "sad", "angry", "scared", "neutral"] : List String) →
          s ∈ objectPrototypeProps →
          (updateIndicators r).emotion.icon = none ∧
          (updateIndicators r).emotion.color = none)) := by
  constructor
  · rintro (h | h) <;>
      simp only [updateIndicators, emotionView, emotionOrNeutral, h] <;> decide
  · intro s hs hne
    have hv : emotionOrNeutral r.emotion = s := by simp [emotionOrNeutral, hs, hne]
    refine ⟨?_, ?_, ?_⟩
    · intro _
      simp only [updateIndicators, emotionView, hv]
    · intro hmem hproto
      simp only [List.mem_cons, List.mem_singleton, not_or] at hmem
      obtain ⟨h1, h2, h3, h4, h5⟩ := hmem
      simp [updateIndicators, emotionView, hv, emotionIcons, emotionColors,
        h1, h2, h3, h4, h5, hproto]
    · intro hmem hproto
      simp only [List.mem_cons, List.mem_singleton, not_or] at hmem
      obtain ⟨h1, h2, h3, h4, h5⟩ := hmem
      simp [updateIndicators, emotionView, hv, emotionIcons, emotionColors,
        h1, h2, h3, h4, h5, hproto]

/-- Witness for `updateIndicators_c7_amended`: the absent-emotion
default, the unrecognized-emotion fallback, and the inherited
`Object.prototype` case, each at a concrete input. -/
theorem updateIndicators_c7_amended_witness :
    (updateIndicators c6Input).emotion.label = "Neutral" ∧
    (updateIndicators c7Input).emotion.label = capitalizeFirst "confused" ∧
    (updateIndicators c7Input).emotion.icon = some "&#128528;" ∧
    (updateIndicators c7Input).emotion.color = none ∧
    (updateIndicators c7ProtoInput).emotion.icon = none :=
  ⟨((updateIndicators_c7_amended c6Input).1 (Or.inl rfl)).1,
   ((updateIndicators_c7_amended c7Input).2 "confused" rfl (by decide)).1 (by decide),
   (((updateIndicators_c7_amended c7Input).2 "confused" rfl
       (by decide)).2.1 (by decide) (by decide)).1,
   (((updateIndicators_c7_amended c7Input).2 "confused" rfl
       (by decide)).2.1 (by decide) (by decide)).2,
   (((updateIndicators_c7_amended c7ProtoInput).2 "constructor" rfl
       (by decide)).2.2 (by decide) (by decide)).1⟩

/-- C10: an `emotion_confidence` that is present and exactly 0 renders
the same 50% bar as an absent field (the `|| 0.5` default also applies to
the falsy value 0), whereas fall, aggression and risky confidences of
exactly 0 render 0% bars. -/
theorem updateIndicators_c10 (r : AnalysisResult) :
    (r.emotion_confidence = some 0 → (updateIndicators r).emotion.fillPercent = 50) ∧
    (r.emotion_confidence = none → (updateIndicators r).emotion.fillPercent = 50) ∧
    (r.fall_confidence = some 0 → (updateIndicators r).fall.fillPercent = 0) ∧
    (r.aggression_confidence = some 0 → (updateIndicators r).aggression.fillPercent = 0) ∧
    (r.risky_confidence = some 0 → (updateIndicators r).risky.fillPercent = 0) := by
  refine ⟨?_, ?_, ?_, ?_, ?_⟩ <;> intro h <;>
    norm_num [updateIndicators, emotionView, fallView, aggressionView, riskyView,
      orDefault, h]

/-- Witness for `updateIndicators_c10` on the all-zero-confidence
result. -/
theorem updateIndicators_c10_witness :
    (updateIndicators c10Input).emotion.fillPercent = 50 ∧
    (updateIndicators c10Input).fall.fillPercent = 0 ∧
    (updateIndicators c10Input).aggression.fillPercent = 0 ∧
    (updateIndicators c10Input).risky.fillPercent = 0 :=
  ⟨(updateIndicators_c10 c10Input).1 rfl,
   (updateIndicators_c10 c10Input).2.2.1 rfl,
   (updateIndicators_c10 c10Input).2.2.2.1 rfl,
   (updateIndicators_c10 c10Input).2.2.2.2 rfl⟩

/-- C8: classification assigns exactly one of the four classes, by
substring tests in the fixed precedence order Fall, Aggression, Risky,
defaulting to info; the first matching category wins. -/
theorem getAlertClass_spec (issue : String) :
    (getAlertClass issue = "alert-critical" ∨ getAlertClass issue = "alert-warning" ∨
     getAlertClass issue = "alert-caution" ∨ getAlertClass issue = "alert-info") ∧
    (strIncludes issue "Fall" = true → getAlertClass issue = "alert-critical") ∧
    (strIncludes issue "Fall" = false → strIncludes issue "Aggression" = true →
       getAlertClass issue = "alert-warning") ∧
    (strIncludes issue "Fall" = false → strIncludes issue "Aggression" = false →
       strIncludes issue "Risky" = true → getAlertClass issue = "alert-caution") ∧
    (strIncludes issue "Fall" = false → strIncludes issue "Aggression" = false →
       strIncludes issue "Risky" = false → getAlertClass issue = "alert-info") := by
  unfold getAlertClass
  rcases hF : strIncludes issue "Fall" <;>
    rcases hA : strIncludes issue "Aggression" <;>
      rcases hR : strIncludes issue "Risky" <;> simp

/-- Witness for `getAlertClass_spec`: an issue containing both "Fall" and
"Aggression" classifies as critical (Fall precedence wins). -/
theorem getAlertClass_spec_witness :
    getAlertClass "Fall and Aggression detected" = "alert-critical" :=
  (getAlertClass_spec "Fall and Aggression detected").2.1 (by decide)

/-- C3 fails on the code and the specification is the stated intent: the
source has no session-state guard, so a `startMonitoring` call in the
Active state acquires the capture device again (without releasing the
previously held stream), and a `stopMonitoring` call in the Idle state
still sends the `/api/status/toggle` notification. -/
theorem startStop_unguarded :
    Effect.acquireDevice ∈ (startMonitoringStep activeState 1 1).2 ∧
    Effect.stopTracks ∉ (startMonitoringStep activeState 1 1).2 ∧
    (startMonitoringStep activeState 1 1).1.stream = some 1 ∧
    Effect.postStatusToggle ∈ (stopMonitoringStep idleState).2 := by
  refine ⟨?_, ?_, ?_, ?_⟩ <;> decide

/-- C9 fails as stated on one point: a non-2xx response produces no log
line at all - `analyzeFrame` only logs from its catch block, and a
resolved response with `response.ok` false never reaches it. -/
theorem analyzeFrame_httpFailure_silent :
    analyzeFrameStep activeState FetchOutcome.httpFailure = (activeState, []) := rfl

/-- C9 (amended): on a tick while monitoring is active, a transport
error is caught and logged and a non-2xx response is skipped silently;
in both cases the state - monitoring flag, stream and interval handles,
and indicators - is completely unchanged, so the next scheduled tick
proceeds unaffected (no retry, no backoff). -/
theorem analyzeFrameStep_failure_spec (s : AppState) (o : FetchOutcome)
    (hm : s.isMonitoring = true) (hc : s.hasCanvas = true) :
    (o = FetchOutcome.transportFailure →
       analyzeFrameStep s o = (s, ["Error analyzing frame:"])) ∧
    (o = FetchOutcome.httpFailure → analyzeFrameStep s o = (s, [])) := by
  constructor <;> rintro rfl <;> simp [analyzeFrameStep, hm, hc]

/-- Witness for `analyzeFrameStep_failure_spec` on the active state. -/
theorem analyzeFrameStep_failure_spec_witness :
    analyzeFrameStep activeState FetchOutcome.transportFailure =
      (activeState, ["Error analyzing frame:"]) :=
  (analyzeFrameStep_failure_spec activeState FetchOutcome.transportFailure rfl rfl).1 rfl

/-- C2: the encoded payload of an analysis tick is a function of the raw
video frame and the canvas dimensions only - two capture states that
agree on the raw frame and the dimensions but whose filtered display
buffers differ arbitrarily produce the identical payload, downscaled to
half the canvas size. -/
theorem analyzePayload_independent (env : BrowserEnv) (s t : CaptureState)
    (hv : s.videoFrame = t.videoFrame) (hw : s.canvasW = t.canvasW)
    (hh : s.canvasH = t.canvasH) :
    analyzePayload env s = analyzePayload env t ∧
    analyzePayload env s =
      env.encodeJpeg (env.drawScaled s.videoFrame (s.canvasW / 2) (s.canvasH / 2))
        (s.canvasW / 2) (s.canvasH / 2) := by
  constructor
  · simp [analyzePayload, hv, hw, hh]
  · rfl

/-- Witness for `analyzePayload_independent`: two capture states that
differ in the display buffer (gray vs. black) yield the same payload. -/
theorem analyzePayload_independent_witness :
    analyzePayload witnessEnv captureGray = analyzePayload witnessEnv captureBlack ∧
    captureGray.canvasBuf 0 0 ≠ captureBlack.canvasBuf 0 0 :=
  ⟨(analyzePayload_independent witnessEnv captureGray captureBlack rfl rfl rfl).1,
   by decide⟩

/-- Coordinate characterization of a clipped block's pixel set. -/
theorem mem_blockPts {W H x0 y0 p q : Nat} :
    (p, q) ∈ blockPts W H x0 y0 ↔
      x0 ≤ p ∧ p < x0 + min 16 (W - x0) ∧ y0 ≤ q ∧ q < y0 + min 16 (H - y0) := by
  simp only [blockPts, List.mem_flatMap, List.mem_map, List.mem_range, Prod.mk.injEq]
  constructor
  · rintro ⟨dy, hdy, dx, hdx, rfl, rfl⟩
    omega
  · intro h
    refine ⟨q - y0, by omega, p - x0, by omega, by omega, by omega⟩

/-- A block origin on the 16-grid is determined by any pixel of its
clipped block. -/
theorem blockPts_origin_eq {W H x0 y0 p q : Nat} (hx : x0 % 16 = 0) (hy : y0 % 16 = 0)
    (h : (p, q) ∈ blockPts W H x0 y0) : x0 = 16 * (p / 16) ∧ y0 = 16 * (q / 16) := by
  rw [mem_blockPts] at h
  omega

/-- A pixel inside the region belongs to the clipped block of the 16-grid
origin containing it. -/
theorem self_mem_blockPts {W H p q : Nat} (hp : p < W) (hq : q < H) :
    (p, q) ∈ blockPts W H (16 * (p / 16)) (16 * (q / 16)) := by
  rw [mem_blockPts]
  omega

/-- Every pixel of a clipped block lies inside the region. -/
theorem blockPts_lt {W H x0 y0 p q : Nat} (h : (p, q) ∈ blockPts W H x0 y0) :
    p < W ∧ q < H := by
  rw [mem_blockPts] at h
  omega

/-- The origins visited by the outer loops are exactly the 16-grid points
inside the region. -/
theorem mem_blockOrigins {W H x0 y0 : Nat} :
    (x0, y0) ∈ blockOrigins W H ↔ x0 % 16 = 0 ∧ y0 % 16 = 0 ∧ x0 < W ∧ y0 < H := by
  simp only [blockOrigins, List.mem_flatMap, List.mem_map, List.mem_range, Prod.mk.injEq]
  constructor
  · rintro ⟨j, hj, i, hi, rfl, rfl⟩
    omega
  · intro h
    refine ⟨y0 / 16, by omega, x0 / 16, by omega, by omega, by omega⟩

/-- The outer loops visit each block origin once. -/
theorem nodup_blockOrigins (W H : Nat) : (blockOrigins W H).Nodup := by
  unfold blockOrigins
  rw [List.nodup_flatMap]
  constructor
  · intro j _
    refine List.Nodup.map ?_ (List.nodup_range _)
    intro a b hab
    simp only [Prod.mk.injEq] at hab
    omega
  · refine (List.pairwise_lt_range _).imp ?_
    intro j j' hlt
    intro a haj haj'
    simp only [Function.onFun, List.mem_map, List.mem_range] at haj haj'
    obtain ⟨i, _, rfl⟩ := haj
    obtain ⟨i', _, heq⟩ := haj'
    simp only [Prod.mk.injEq] at heq
    omega

/-- Distinct visited block origins have disjoint clipped pixel sets: a
pixel determines its 16-grid origin. -/
theorem pairwise_disjoint_blockOrigins (W H : Nat) :
    (blockOrigins W H).Pairwise fun o o' => ∀ p q,
      (p, q) ∈ blockPts W H o.1 o.2 → (p, q) ∉ blockPts W H o'.1 o'.2 := by
  refine (nodup_blockOrigins W H).imp_of_mem ?_
  intro o o' ho ho' hne p q hp hp'
  rw [mem_blockOrigins] at ho ho'
  obtain ⟨e1, e2⟩ := blockPts_origin_eq ho.1 ho.2.1 hp
  obtain ⟨e1', e2'⟩ := blockPts_origin_eq ho'.1 ho'.2.1 hp'
  exact hne (Prod.ext (by omega) (by omega))

/-- Channel sums only read the buffer at the listed coordinates. -/
theorem chanSum_congr {d d' : Img} {pts : List (Nat × Nat)}
    (h : ∀ p ∈ pts, d p.1 p.2 = d' p.1 p.2) (f : Pixel → Nat) :
    chanSum d pts f = chanSum d' pts f := by
  unfold chanSum
  exact congrArg List.sum (List.map_congr_left fun p hp => by rw [h p hp])

/-- Main loop invariant of the pixelation loop nest: folding
`processBlock` over a list of pairwise-disjoint blocks whose pixels still
hold their original (`d0`) values writes, at every pixel of one of those
blocks, the floored mean of the block's original values with the original
alpha, and leaves every other pixel unchanged.  In particular pass 1 of a
block only ever reads pre-filter values, because no earlier block
overlaps it. -/
theorem foldl_processBlock_spec (W H : Nat) :
    ∀ (L : List (Nat × Nat)) (d d0 : Img),
      (L.Pairwise fun o o' => ∀ p q, (p, q) ∈ blockPts W H o.1 o.2 →
          (p, q) ∉ blockPts W H o'.1 o'.2) →
      (∀ o ∈ L, ∀ p q, (p, q) ∈ blockPts W H o.1 o.2 → d p q = d0 p q) →
      ∀ p q,
        (∀ o ∈ L, (p, q) ∈ blockPts W H o.1 o.2 →
           L.foldl (fun acc u => processBlock W H u.1 u.2 acc) d p q =
             { r := chanSum d0 (blockPts W H o.1 o.2) Pixel.r /
                      (blockPts W H o.1 o.2).length
               g := chanSum d0 (blockPts W H o.1 o.2) Pixel.g /
                      (blockPts W H o.1 o.2).length
               b := chanSum d0 (blockPts W H o.1 o.2) Pixel.b /
                      (blockPts W H o.1 o.2).length
               a := (d0 p q).a }) ∧
        ((∀ o ∈ L, (p, q) ∉ blockPts W H o.1 o.2) →
           L.foldl (fun acc u => processBlock W H u.1 u.2 acc) d p q = d p q) := by
  intro L
  induction L with
  | nil =>
    intro d d0 _ _ p q
    exact ⟨fun o ho => absurd ho (List.not_mem_nil o), fun _ => rfl⟩
  | cons o L ih =>
    intro d d0 hpair hagree p q
    rw [List.pairwise_cons] at hpair
    obtain ⟨hhead, htail⟩ := hpair
    have hagree1 : ∀ o' ∈ L, ∀ a b, (a, b) ∈ blockPts W H o'.1 o'.2 →
        processBlock W H o.1 o.2 d a b = d0 a b := by
      intro o' ho' a b hab
      have hnot : (a, b) ∉ blockPts W H o.1 o.2 := fun hmem => hhead o' ho' a b hmem hab
      show (if (a, b) ∈ blockPts W H o.1 o.2 then _ else d a b) = d0 a b
      rw [if_neg hnot]
      exact hagree o' (List.mem_cons_of_mem o ho') a b hab
    have ihspec := ih (processBlock W H o.1 o.2 d) d0 htail hagree1 p q
    rw [List.foldl_cons]
    constructor
    · intro o'' hmem'' hpts''
      rcases List.mem_cons.mp hmem'' with heq | h''
      · subst heq
        have hnone : ∀ o' ∈ L, (p, q) ∉ blockPts W H o'.1 o'.2 :=
          fun o' ho' => hhead o' ho' p q hpts''
        rw [ihspec.2 hnone]
        show (if (p, q) ∈ blockPts W H o''.1 o''.2 then _ else d p q) = _
        rw [if_pos hpts'']
        have hcs : ∀ f : Pixel → Nat,
            chanSum d (blockPts W H o''.1 o''.2) f =
              chanSum d0 (blockPts W H o''.1 o''.2) f :=
          fun f => chanSum_congr
            (fun u hu => hagree o'' (List.mem_cons_self o'' L) u.1 u.2 hu) f
        rw [hcs Pixel.r, hcs Pixel.g, hcs Pixel.b,
          hagree o'' (List.mem_cons_self o'' L) p q hpts'']
      · exact ihspec.1 o'' h'' hpts''
    · intro hnone
      rw [ihspec.2 fun o' ho' => hnone o' (List.mem_cons_of_mem o ho')]
      show (if (p, q) ∈ blockPts W H o.1 o.2 then _ else d p q) = d p q
      rw [if_neg (hnone o (List.mem_cons_self o L))]

/-- Region-level statement: the pixelation loop nest maps every pixel
inside the region to the floored block mean of the pre-filter data (alpha
kept) and leaves coordinates outside the region unchanged. -/
theorem filterRegion_spec (W H : Nat) (d : Img) (p q : Nat) :
    (p < W → q < H → filterRegion W H d p q = blockMeanPixel W H d p q) ∧
    (W ≤ p ∨ H ≤ q → filterRegion W H d p q = d p q) := by
  have hspec := foldl_processBlock_spec W H (blockOrigins W H) d d
    (pairwise_disjoint_blockOrigins W H) (fun _ _ _ _ _ => rfl) p q
  constructor
  · intro hp hq
    have ho : ((16 * (p / 16), 16 * (q / 16)) : Nat × Nat) ∈ blockOrigins W H := by
      rw [mem_blockOrigins]
      omega
    have hmem := self_mem_blockPts hp hq
    exact hspec.1 (16 * (p / 16), 16 * (q / 16)) ho hmem
  · intro hout
    refine hspec.2 ?_
    intro o ho hmem
    have := blockPts_lt hmem
    omega

/-- C1: for every frame buffer and the face region with block size 16,
`applyPrivacyFilter` gives every pixel inside the face region the
floored mean R, G, B of the clipped pre-filter pixel set of the block
containing it, keeps its alpha, and leaves every pixel outside the face
region bit-identical to the input. -/
theorem applyPrivacyFilter_spec (w h : Nat) (buf : Img) (px py : Nat) :
    ((faceRegion w h).containsPt px py →
       applyPrivacyFilter w h buf px py =
         blockMeanPixel (faceRegion w h).width (faceRegion w h).height
           (fun u v => buf ((faceRegion w h).x + u) ((faceRegion w h).y + v))
           (px - (faceRegion w h).x) (py - (faceRegion w h).y) ∧
       (applyPrivacyFilter w h buf px py).a = (buf px py).a) ∧
    (¬ (faceRegion w h).containsPt px py →
       applyPrivacyFilter w h buf px py = buf px py) := by
  constructor
  · intro hin
    obtain ⟨h1, h2, h3, h4⟩ := hin
    have hu : px - (faceRegion w h).x < (faceRegion w h).width := by omega
    have hv : py - (faceRegion w h).y < (faceRegion w h).height := by omega
    have heq : applyPrivacyFilter w h buf px py =
        filterRegion (faceRegion w h).width (faceRegion w h).height
          (fun u v => buf ((faceRegion w h).x + u) ((faceRegion w h).y + v))
          (px - (faceRegion w h).x) (py - (faceRegion w h).y) := by
      show (if (faceRegion w h).containsPt px py then _ else buf px py) = _
      rw [if_pos ⟨h1, h2, h3, h4⟩]
    rw [heq, (filterRegion_spec _ _ _ _ _).1 hu hv]
    refine ⟨rfl, ?_⟩
    have e1 : (faceRegion w h).x + (px - (faceRegion w h).x) = px := by omega
    have e2 : (faceRegion w h).y + (py - (faceRegion w h).y) = py := by omega
    show (buf ((faceRegion w h).x + (px - (faceRegion w h).x))
        ((faceRegion w h).y + (py - (faceRegion w h).y))).a = (buf px py).a
    rw [e1, e2]
  · intro hout
    show (if (faceRegion w h).containsPt px py then _ else buf px py) = buf px py
    rw [if_neg hout]

/-- Witness for `applyPrivacyFilter_spec` on an 8 × 40 canvas (face
region 4 × 18 at (2, 2)): the outside corner pixel is untouched, and the
region's first pixel carries the block mean with its original alpha. -/
theorem applyPrivacyFilter_spec_witness :
    applyPrivacyFilter 8 40 grayImg 0 0 = grayImg 0 0 ∧
    applyPrivacyFilter 8 40 grayImg 2 2 =
      blockMeanPixel 4 18 (fun u v => grayImg (2 + u) (2 + v)) 0 0 ∧
    (applyPrivacyFilter 8 40 grayImg 2 2).a = (grayImg 2 2).a :=
  ⟨(applyPrivacyFilter_spec 8 40 grayImg 0 0).2 (by decide),
   ((applyPrivacyFilter_spec 8 40 grayImg 2 2).1 (by decide)).1,
   ((applyPrivacyFilter_spec 8 40 grayImg 2 2).1 (by decide)).2⟩

/-- A channel sum over pixels that all carry the same value. -/
theorem chanSum_const {d : Img} {pts : List (Nat × Nat)} {f : Pixel → Nat} {c : Nat}
    (h : ∀ p ∈ pts, f (d p.1 p.2) = c) : chanSum d pts f = pts.length * c := by
  induction pts with
  | nil => simp [chanSum]
  | cons p ps ih =>
    have hp := h p (List.mem_cons_self p ps)
    have ihs := ih fun u hu => h u (List.mem_cons_of_mem p hu)
    simp only [chanSum, List.map_cons, List.sum_cons, List.length_cons] at hp ihs ⊢
    rw [hp, ihs]
    ring

/-- Processing a block whose R, G, B are already constant changes
nothing: the mean of a constant block is that constant, and alpha is
copied through. -/
theorem processBlock_id {W H x0 y0 : Nat} {d : Img}
    (hconst : ∀ p ∈ blockPts W H x0 y0, ∀ p' ∈ blockPts W H x0 y0,
       (d p.1 p.2).r = (d p'.1 p'.2).r ∧ (d p.1 p.2).g = (d p'.1 p'.2).g ∧
       (d p.1 p.2).b = (d p'.1 p'.2).b) :
    processBlock W H x0 y0 d = d := by
  funext px py
  show (if (px, py) ∈ blockPts W H x0 y0 then _ else d px py) = d px py
  by_cases hmem : (px, py) ∈ blockPts W H x0 y0
  · rw [if_pos hmem]
    have hlen : 0 < (blockPts W H x0 y0).length :=
      List.length_pos.mpr fun hnil => List.not_mem_nil _ (hnil ▸ hmem)
    have hr : chanSum d (blockPts W H x0 y0) Pixel.r =
        (blockPts W H x0 y0).length * (d px py).r :=
      chanSum_const fun p hp => (hconst p hp (px, py) hmem).1
    have hg : chanSum d (blockPts W H x0 y0) Pixel.g =
        (blockPts W H x0 y0).length * (d px py).g :=
      chanSum_const fun p hp => (hconst p hp (px, py) hmem).2.1
    have hb : chanSum d (blockPts W H x0 y0) Pixel.b =
        (blockPts W H x0 y0).length * (d px py).b :=
      chanSum_const fun p hp => (hconst p hp (px, py) hmem).2.2
    rw [hr, hg, hb, Nat.mul_div_cancel_left _ hlen, Nat.mul_div_cancel_left _ hlen,
      Nat.mul_div_cancel_left _ hlen]
  · rw [if_neg hmem]

/-- Folding block processing over blocks that each leave the data
unchanged leaves the data unchanged. -/
theorem foldl_processBlock_id {W H : Nat} {L : List (Nat × Nat)} {d : Img}
    (h : ∀ o ∈ L, processBlock W H o.1 o.2 d = d) :
    L.foldl (fun acc u => processBlock W H u.1 u.2 acc) d = d := by
  induction L with
  | nil => rfl
  | cons o L ih =>
    rw [List.foldl_cons, h o (List.mem_cons_self o L)]
    exact ih fun o' ho' => h o' (List.mem_cons_of_mem o ho')

/-- After one pass of the pixelation loop, R, G, B are constant on every
visited block. -/
theorem filterRegion_blockConstant (W H : Nat) (d : Img) :
    ∀ o ∈ blockOrigins W H, ∀ p ∈ blockPts W H o.1 o.2, ∀ p' ∈ blockPts W H o.1 o.2,
      (filterRegion W H d p.1 p.2).r = (filterRegion W H d p'.1 p'.2).r ∧
      (filterRegion W H d p.1 p.2).g = (filterRegion W H d p'.1 p'.2).g ∧
      (filterRegion W H d p.1 p.2).b = (filterRegion W H d p'.1 p'.2).b := by
  intro o ho p hp p' hp'
  rw [mem_blockOrigins] at ho
  have hpl := blockPts_lt hp
  have hpl' := blockPts_lt hp'
  have he := blockPts_origin_eq ho.1 ho.2.1 hp
  have he' := blockPts_origin_eq ho.1 ho.2.1 hp'
  have h1 := (filterRegion_spec W H d p.1 p.2).1 hpl.1 hpl.2
  have h2 := (filterRegion_spec W H d p'.1 p'.2).1 hpl'.1 hpl'.2
  rw [h1, h2]
  have e1 : 16 * (p.1 / 16) = 16 * (p'.1 / 16) := by omega
  have e2 : 16 * (p.2 / 16) = 16 * (p'.2 / 16) := by omega
  simp only [blockMeanPixel]
  rw [e1, e2]
  exact ⟨rfl, rfl, rfl⟩

/-- The pixelation loop is idempotent at region level - for every region
size, aligned or not: averaging an already constant clipped block
reproduces its constant exactly (`(n * c) / n = c`). -/
theorem filterRegion_idem (W H : Nat) (d : Img) :
    filterRegion W H (filterRegion W H d) = filterRegion W H d := by
  show (blockOrigins W H).foldl (fun acc u => processBlock W H u.1 u.2 acc)
      (filterRegion W H d) = filterRegion W H d
  refine foldl_processBlock_id ?_
  intro o ho
  exact processBlock_id (filterRegion_blockConstant W H d o ho)

/-- Value of the filtered canvas at a point inside the face region. -/
theorem applyPrivacyFilter_in {w h px py : Nat} (buf : Img)
    (hin : (faceRegion w h).containsPt px py) :
    applyPrivacyFilter w h buf px py =
      filterRegion (faceRegion w h).width (faceRegion w h).height
        (fun u v => buf ((faceRegion w h).x + u) ((faceRegion w h).y + v))
        (px - (faceRegion w h).x) (py - (faceRegion w h).y) := by
  show (if (faceRegion w h).containsPt px py then _ else buf px py) = _
  rw [if_pos hin]

/-- Value of the filtered canvas at a point outside the face region. -/
theorem applyPrivacyFilter_out {w h px py : Nat} (buf : Img)
    (hout : ¬ (faceRegion w h).containsPt px py) :
    applyPrivacyFilter w h buf px py = buf px py := by
  show (if (faceRegion w h).containsPt px py then _ else buf px py) = buf px py
  rw [if_neg hout]

/-- Extracting the face region from a filtered canvas yields exactly the
filtered extract: inside the region by construction, and past the region
size because no block of the loop nest reaches those coordinates. -/
theorem extract_applyPrivacyFilter (w h : Nat) (buf : Img) :
    (fun u v => applyPrivacyFilter w h buf
        ((faceRegion w h).x + u) ((faceRegion w h).y + v)) =
      filterRegion (faceRegion w h).width (faceRegion w h).height
        (fun u v => buf ((faceRegion w h).x + u) ((faceRegion w h).y + v)) := by
  funext u v
  by_cases hu : u < (faceRegion w h).width ∧ v < (faceRegion w h).height
  · have hin : (faceRegion w h).containsPt
        ((faceRegion w h).x + u) ((faceRegion w h).y + v) := by
      simp only [Rect.containsPt]
      omega
    rw [applyPrivacyFilter_in buf hin]
    have e1 : (faceRegion w h).x + u - (faceRegion w h).x = u := by omega
    have e2 : (faceRegion w h).y + v - (faceRegion w h).y = v := by omega
    rw [e1, e2]
  · have hout2 : (faceRegion w h).width ≤ u ∨ (faceRegion w h).height ≤ v := by omega
    have hnot : ¬ (faceRegion w h).containsPt
        ((faceRegion w h).x + u) ((faceRegion w h).y + v) := by
      simp only [Rect.containsPt]
      omega
    rw [applyPrivacyFilter_out buf hnot,
      (filterRegion_spec (faceRegion w h).width (faceRegion w h).height _ u v).2 hout2]

/-- C5: applying the privacy filter a second time to a frame buffer whose
face region width and height are multiples of 16 changes no pixel.  (The
proof does not even need the alignment hypotheses: each block - clipped
or not - is constant after the first pass, and the floored mean of a
constant block is that constant, so the filter is idempotent for every
region size, in particular for aligned ones.) -/
theorem applyPrivacyFilter_idem (w h : Nat) (buf : Img)
    (_hW : 16 ∣ (faceRegion w h).width) (_hH : 16 ∣ (faceRegion w h).height) :
    applyPrivacyFilter w h (applyPrivacyFilter w h buf) = applyPrivacyFilter w h buf := by
  funext px py
  by_cases hin : (faceRegion w h).containsPt px py
  · rw [applyPrivacyFilter_in _ hin, applyPrivacyFilter_in _ hin,
      extract_applyPrivacyFilter, filterRegion_idem]
  · rw [applyPrivacyFilter_out _ hin, applyPrivacyFilter_out _ hin]

/-- Witness for `applyPrivacyFilter_idem` on a 64 × 320 canvas, whose
face region is 32 × 144 - both multiples of 16. -/
theorem applyPrivacyFilter_idem_witness :
    applyPrivacyFilter 64 320 (applyPrivacyFilter 64 320 grayImg) =
      applyPrivacyFilter 64 320 grayImg :=
  applyPrivacyFilter_idem 64 320 grayImg ⟨2, by decide⟩ ⟨9, by decide⟩
